import Mathlib

/-!
Shallow embedding of `mcp-client/client.py` (the tool-invocation
orchestration loop of the MCP getting-started client).

The external collaborators — the MCP session (`list_tools`, `call_tool`),
the chat-completion API (the two `chat.completions.create` calls of a
turn) and `json.loads` — are supplied as an environment (`TurnEnv`).
Python exceptions are modelled with `Except PyError`: an exception raised
inside `process_query` surfaces as `Except.error` in the turn result,
with the conversation list keeping whatever was appended before the raise
(Python mutates `self.messages` in place, so appended entries survive a
raise).
-/

/-- Argument payload as parsed by `json.loads`: a mapping from parameter
name to value (values kept as strings; the client treats them as opaque). -/
abbrev Arguments := List (String × String)

/-- The `function` object of a model tool call: `.function.name` and
`.function.arguments` (a serialized payload string) as read at
client.py lines 99-100. -/
structure ToolCallFunction where
  name : String
  arguments : String
  deriving DecidableEq, Repr

/-- One tool-call request of an assistant message: `content.tool_calls[i]`
with its correlation `id` (client.py line 102). -/
structure ToolCall where
  id : String
  function : ToolCallFunction
  deriving DecidableEq, Repr

/-- The assistant message of a chat completion: optional text `content`
and optional list of tool calls (`None` when the model requests no tool). -/
structure AssistantMessage where
  content : Option String
  tool_calls : Option (List ToolCall)
  deriving DecidableEq, Repr

/-- One content block of a Tool Result; `model_dump_json` is its JSON
serialization as produced by `result.content[0].model_dump_json()`
(client.py line 116). -/
structure ContentBlock where
  model_dump_json : String
  deriving DecidableEq, Repr

/-- A Tool Result returned by `session.call_tool`: an error indicator and
an ordered sequence of content blocks. -/
structure CallToolResult where
  isError : Bool
  content : List ContentBlock
  deriving DecidableEq, Repr

/-- The input schema of a Tool Descriptor: `properties` (parameter name to
type/constraint metadata, kept opaque as strings) and `required`. -/
structure InputSchema where
  properties : List (String × String)
  required : List String
  deriving DecidableEq, Repr

/-- A Tool Descriptor as returned by `session.list_tools()`. -/
structure Tool where
  name : String
  description : String
  inputSchema : InputSchema
  deriving DecidableEq, Repr

/-- The `parameters` object of the converted schema (client.py lines 30-34). -/
structure ParametersSchema where
  type : String
  properties : List (String × String)
  required : List String
  deriving DecidableEq, Repr

/-- The `function` object of the converted schema (client.py lines 27-35). -/
structure FunctionSchema where
  name : String
  description : String
  parameters : ParametersSchema
  deriving DecidableEq, Repr

/-- A model-API-compatible tool schema object (client.py lines 25-36). -/
structure ConvertedTool where
  type : String
  function : FunctionSchema
  deriving DecidableEq, Repr

/-- `convert_tool_format` (client.py lines 24-37): adapt one Tool
Descriptor to the model-API schema shape. -/
def convert_tool_format (tool : Tool) : ConvertedTool :=
  { type := "function"
    function :=
      { name := tool.name
        description := tool.description
        parameters :=
          { type := "object"
            properties := tool.inputSchema.properties
            required := tool.inputSchema.required } } }

/-- `StdioServerParameters` as constructed at client.py lines 63-67. -/
structure StdioServerParameters where
  command : String
  args : List String
  env : Option (List (String × String))
  deriving DecidableEq, Repr

/-- Python `str.endswith`: suffix test on the character sequence. -/
def endswith (s : String) (post : String) : Bool :=
  post.data.isSuffixOf s.data

/-- The launch-parameter stage of `connect_to_server` (client.py lines
57-67): extension check, interpreter selection and parameter construction.
The `ValueError` raised before any subprocess launch is `Except.error`. -/
def connect_to_server_params (server_script_path : String) :
    Except String StdioServerParameters :=
  let is_python := endswith server_script_path ".py"
  let is_js := endswith server_script_path ".js"
  if ¬ (is_python ∨ is_js) then
    Except.error "Server script must be a .py or .js file"
  else
    Except.ok
      { command := if is_python then "python" else "node"
        args := [server_script_path]
        env := none }

/-- Python exceptions that `process_query` can raise. -/
inductive PyError where
  /-- `json.loads` on a non-empty malformed payload (line 101). -/
  | jsonDecodeError
  /-- `content.tool_calls[0]` on an empty list (line 99) or
  `result.content[0]` on an empty content sequence (line 116). -/
  | indexError
  /-- `result.content` when `result` is `None` after a dispatch
  exception (lines 109 and 116). -/
  | attributeError
  /-- `"\n".join(final_text)` when a `None` message content was
  appended to `final_text` (lines 126-129). -/
  | typeError
  deriving DecidableEq, Repr

/-- A conversation entry of `self.messages`: the user query (lines 82-85),
the assistant message appended verbatim (line 94), or the tool entry with
its correlation id, tool name and serialized first content block
(lines 111-117). -/
inductive Entry where
  | user (content : String)
  | assistant (message : AssistantMessage)
  | tool (tool_call_id : String) (name : String) (content : String)
  deriving DecidableEq, Repr

/-- The environment of one turn: the tool list served by `list_tools`,
`json.loads` (`none` models a raised `JSONDecodeError`), `call_tool`
(`Except.error` models a raised transport exception), and the two model
responses. -/
structure TurnEnv where
  tools : List Tool
  jsonLoads : String → Option Arguments
  callTool : String → Arguments → Except Unit CallToolResult
  firstResponse : AssistantMessage
  secondResponse : AssistantMessage

/-- Observable outcome of one `process_query` call: the returned string or
the raised exception, the conversation list after the call (mutated in
place in the source, so it persists across a raise), every `call_tool`
invocation issued (tool name and parsed arguments), the number of
`chat.completions.create` calls issued, and the `final_text` list. -/
structure TurnTrace where
  result : Except PyError String
  messages : List Entry
  dispatched : List (String × Arguments)
  modelCalls : Nat
  final_text : List String
  deriving Repr

/-- Python `repr` of a string: single-quoted. -/
def pyReprStr (s : String) : String :=
  "\x27" ++ s ++ "\x27"

/-- Python `repr` of one dict item. -/
def pyReprItem (p : String × String) : String :=
  pyReprStr p.1 ++ ": " ++ pyReprStr p.2

/-- Python `repr` of the parsed arguments dict, as interpolated by the
f-string at client.py line 106. -/
def pyReprArgs (a : Arguments) : String :=
  "\x7b" ++ String.intercalate ", " (a.map pyReprItem) ++ "\x7d"

/-- The tool-call announcement string of client.py line 106. -/
def announce (tool_name : String) (tool_args : Arguments) : String :=
  "[Calling tool " ++ tool_name ++ " with args " ++ pyReprArgs tool_args ++ "]"

/-- Line 101: `tool_args = json.loads(tool_args) if tool_args else {}`.
The empty string is falsy, giving the empty mapping; otherwise
`json.loads` runs and `none` models its raise. -/
def parseArguments (jsonLoads : String → Option Arguments) (raw : String) :
    Option Arguments :=
  if raw = "" then some [] else jsonLoads raw

/-- `MCPClient.process_query` (client.py lines 81-129), step by step:
append the user entry; list and convert the tools; first model call;
append the assistant message verbatim; if `tool_calls is not None`, read
the first request, parse its payload, dispatch, append the tool entry
from `result.content[0]`, second model call, collect `final_text`;
otherwise return the assistant text. Every Python raise becomes an
`Except.error` result carrying the entries appended so far. -/
def process_query (env : TurnEnv) (messages : List Entry) (query : String) :
    TurnTrace :=
  let messages := messages ++ [Entry.user query]
  let _available_tools := env.tools.map convert_tool_format
  let content := env.firstResponse
  let messages := messages ++ [Entry.assistant content]
  match content.tool_calls with
  | some toolCalls =>
    match toolCalls with
    | [] =>
      -- `content.tool_calls[0]` raises IndexError
      ⟨Except.error PyError.indexError, messages, [], 1, []⟩
    | tc :: _ =>
      let tool_name := tc.function.name
      match parseArguments env.jsonLoads tc.function.arguments with
      | none =>
        -- `json.loads` raises before the try block; the turn aborts
        ⟨Except.error PyError.jsonDecodeError, messages, [], 1, []⟩
      | some tool_args =>
        let dispatched := [(tool_name, tool_args)]
        match env.callTool tool_name tool_args with
        | Except.error _ =>
          -- except branch sets `result = None`; line 116 then evaluates
          -- `result.content`, raising AttributeError before the append
          ⟨Except.error PyError.attributeError, messages, dispatched, 1, []⟩
        | Except.ok result =>
          let final_text := [announce tool_name tool_args]
          match result.content with
          | [] =>
            -- `result.content[0]` raises IndexError before the append
            ⟨Except.error PyError.indexError, messages, dispatched, 1,
              final_text⟩
          | block :: _ =>
            let messages :=
              messages ++ [Entry.tool tc.id tool_name block.model_dump_json]
            match env.secondResponse.content with
            | none =>
              -- `final_text` would hold `None`; `"\n".join` raises
              ⟨Except.error PyError.typeError, messages, dispatched, 2,
                final_text⟩
            | some t =>
              let final_text := final_text ++ [t]
              ⟨Except.ok (String.intercalate "\n" final_text), messages,
                dispatched, 2, final_text⟩
  | none =>
    match content.content with
    | none =>
      -- `final_text = [None]`; `"\n".join` raises TypeError
      ⟨Except.error PyError.typeError, messages, [], 1, []⟩
    | some t =>
      ⟨Except.ok (String.intercalate "\n" [t]), messages, [], 1, [t]⟩

/-- A sequence of turns as driven by `chat_loop`: each turn feeds
`process_query` the conversation list left by the previous one (the
loop catches turn-level exceptions and keeps going). -/
def runTurns (turns : List (TurnEnv × String)) (messages : List Entry) :
    List Entry :=
  match turns with
  | [] => messages
  | t :: rest => runTurns rest (process_query t.1 messages t.2).messages

/-! ## Evaluation lemmas: one per control-flow path of `process_query` -/

/-- No-tool branch, text present: the text is the answer. -/
theorem process_query_no_tool_some (env : TurnEnv) (messages : List Entry)
    (query t : String) (h : env.firstResponse.tool_calls = none)
    (hc : env.firstResponse.content = some t) :
    process_query env messages query =
      ⟨Except.ok t,
        messages ++ [Entry.user query, Entry.assistant env.firstResponse],
        [], 1, [t]⟩ := by
  simp only [process_query, h, hc]
  simp [String.intercalate, String.intercalate.go]

/-- No-tool branch, `content = None`: `"\n".join([None])` raises. -/
theorem process_query_no_tool_none (env : TurnEnv) (messages : List Entry)
    (query : String) (h : env.firstResponse.tool_calls = none)
    (hc : env.firstResponse.content = none) :
    process_query env messages query =
      ⟨Except.error PyError.typeError,
        messages ++ [Entry.user query, Entry.assistant env.firstResponse],
        [], 1, []⟩ := by
  simp only [process_query, h, hc]
  simp

/-- Present-but-empty tool-call list: `tool_calls[0]` raises IndexError. -/
theorem process_query_empty_calls (env : TurnEnv) (messages : List Entry)
    (query : String) (h : env.firstResponse.tool_calls = some []) :
    process_query env messages query =
      ⟨Except.error PyError.indexError,
        messages ++ [Entry.user query, Entry.assistant env.firstResponse],
        [], 1, []⟩ := by
  simp only [process_query, h]
  simp

/-- Malformed non-empty payload: `json.loads` raises outside the try
block, so the turn aborts with no dispatch and no tool entry. -/
theorem process_query_parse_fail (env : TurnEnv) (messages : List Entry)
    (query : String) (tc : ToolCall) (rest : List ToolCall)
    (h : env.firstResponse.tool_calls = some (tc :: rest))
    (hp : parseArguments env.jsonLoads tc.function.arguments = none) :
    process_query env messages query =
      ⟨Except.error PyError.jsonDecodeError,
        messages ++ [Entry.user query, Entry.assistant env.firstResponse],
        [], 1, []⟩ := by
  simp only [process_query, h, hp]
  simp

/-- Dispatch exception: `result = None`, then `result.content` raises
AttributeError before the tool entry is appended and before any second
model call. -/
theorem process_query_dispatch_exn (env : TurnEnv) (messages : List Entry)
    (query : String) (tc : ToolCall) (rest : List ToolCall)
    (a : Arguments) (e : Unit)
    (h : env.firstResponse.tool_calls = some (tc :: rest))
    (hp : parseArguments env.jsonLoads tc.function.arguments = some a)
    (hd : env.callTool tc.function.name a = Except.error e) :
    process_query env messages query =
      ⟨Except.error PyError.attributeError,
        messages ++ [Entry.user query, Entry.assistant env.firstResponse],
        [(tc.function.name, a)], 1, []⟩ := by
  simp only [process_query, h, hp, hd]
  simp

/-- Successful dispatch with an empty content sequence:
`result.content[0]` raises IndexError before the append. -/
theorem process_query_empty_content (env : TurnEnv) (messages : List Entry)
    (query : String) (tc : ToolCall) (rest : List ToolCall)
    (a : Arguments) (r : CallToolResult)
    (h : env.firstResponse.tool_calls = some (tc :: rest))
    (hp : parseArguments env.jsonLoads tc.function.arguments = some a)
    (hd : env.callTool tc.function.name a = Except.ok r)
    (hr : r.content = []) :
    process_query env messages query =
      ⟨Except.error PyError.indexError,
        messages ++ [Entry.user query, Entry.assistant env.firstResponse],
        [(tc.function.name, a)], 1, [announce tc.function.name a]⟩ := by
  simp only [process_query, h, hp, hd, hr]
  simp

/-- Successful dispatch, non-empty content, second response with text:
the happy path of the tool branch. -/
theorem process_query_tool_ok (env : TurnEnv) (messages : List Entry)
    (query : String) (tc : ToolCall) (rest : List ToolCall)
    (a : Arguments) (r : CallToolResult) (b : ContentBlock)
    (bs : List ContentBlock) (t2 : String)
    (h : env.firstResponse.tool_calls = some (tc :: rest))
    (hp : parseArguments env.jsonLoads tc.function.arguments = some a)
    (hd : env.callTool tc.function.name a = Except.ok r)
    (hr : r.content = b :: bs)
    (hs : env.secondResponse.content = some t2) :
    process_query env messages query =
      ⟨Except.ok (announce tc.function.name a ++ "\n" ++ t2),
        messages ++ [Entry.user query, Entry.assistant env.firstResponse,
          Entry.tool tc.id tc.function.name b.model_dump_json],
        [(tc.function.name, a)], 2, [announce tc.function.name a, t2]⟩ := by
  simp only [process_query, h, hp, hd, hr, hs]
  simp [String.intercalate, String.intercalate.go]

/-- Successful dispatch, non-empty content, second response with
`content = None`: the tool entry is appended and the second model call is
issued, then `"\n".join` raises TypeError. -/
theorem process_query_tool_second_none (env : TurnEnv)
    (messages : List Entry) (query : String) (tc : ToolCall)
    (rest : List ToolCall) (a : Arguments) (r : CallToolResult)
    (b : ContentBlock) (bs : List ContentBlock)
    (h : env.firstResponse.tool_calls = some (tc :: rest))
    (hp : parseArguments env.jsonLoads tc.function.arguments = some a)
    (hd : env.callTool tc.function.name a = Except.ok r)
    (hr : r.content = b :: bs)
    (hs : env.secondResponse.content = none) :
    process_query env messages query =
      ⟨Except.error PyError.typeError,
        messages ++ [Entry.user query, Entry.assistant env.firstResponse,
          Entry.tool tc.id tc.function.name b.model_dump_json],
        [(tc.function.name, a)], 2, [announce tc.function.name a]⟩ := by
  simp only [process_query, h, hp, hd, hr, hs]
  simp

/-! ## Claim theorems -/

/-- C7: for every Tool Descriptor, `convert_tool_format` is a pure,
deterministic function producing an object with fields `name`,
`description` and a `parameters` object whose `properties` and `required`
are copied verbatim, uninterpreted and unvalidated, from the descriptor's
input schema. -/
theorem c7_convert_tool_format_verbatim (tool : Tool) :
    (convert_tool_format tool).type = "function" ∧
    (convert_tool_format tool).function.name = tool.name ∧
    (convert_tool_format tool).function.description = tool.description ∧
    (convert_tool_format tool).function.parameters.type = "object" ∧
    (convert_tool_format tool).function.parameters.properties
      = tool.inputSchema.properties ∧
    (convert_tool_format tool).function.parameters.required
      = tool.inputSchema.required :=
  ⟨rfl, rfl, rfl, rfl, rfl, rfl⟩

/-- C8: `connect_to_server` rejects a script path ending in neither `.py`
nor `.js` with a `ValueError` before any launch parameters exist (hence
before any subprocess launch or connection attempt); otherwise the
interpreter is selected from the extension (`python` for `.py`, `node`
for `.js`), the script path is the sole argument, and no extra
environment is injected (`env = None`). -/
theorem c8_connect_extension_check (server_script_path : String) :
    (endswith server_script_path ".py" = false →
      endswith server_script_path ".js" = false →
      connect_to_server_params server_script_path
        = Except.error "Server script must be a .py or .js file") ∧
    (endswith server_script_path ".py" = true →
      connect_to_server_params server_script_path
        = Except.ok ⟨"python", [server_script_path], none⟩) ∧
    (endswith server_script_path ".py" = false →
      endswith server_script_path ".js" = true →
      connect_to_server_params server_script_path
        = Except.ok ⟨"node", [server_script_path], none⟩) := by
  refine ⟨fun hp hj => ?_, fun hp => ?_, fun hp hj => ?_⟩
  · simp [connect_to_server_params, hp, hj]
  · simp [connect_to_server_params, hp]
  · simp [connect_to_server_params, hp, hj]

/-- Witness for C8 at concrete paths: `server.py` launches `python`,
`server.js` launches `node`, and `server.txt` is rejected. -/
theorem c8_connect_extension_check_witness :
    connect_to_server_params "server.py"
      = Except.ok ⟨"python", ["server.py"], none⟩ ∧
    connect_to_server_params "server.js"
      = Except.ok ⟨"node", ["server.js"], none⟩ ∧
    connect_to_server_params "server.txt"
      = Except.error "Server script must be a .py or .js file" :=
  ⟨(c8_connect_extension_check "server.py").2.1 (by decide),
   (c8_connect_extension_check "server.js").2.2 (by decide) (by decide),
   (c8_connect_extension_check "server.txt").1 (by decide) (by decide)⟩

/-- C4: a turn whose first model response carries no tool-call request
(`tool_calls is None`) never invokes `call_tool`, never issues a second
model call, and returns the assistant message's text content as the
final answer. -/
theorem c4_no_tool_call_branch (env : TurnEnv) (messages : List Entry)
    (query : String) (h : env.firstResponse.tool_calls = none) :
    (process_query env messages query).dispatched = [] ∧
    (process_query env messages query).modelCalls = 1 ∧
    ∀ t, env.firstResponse.content = some t →
      (process_query env messages query).result = Except.ok t := by
  cases hc : env.firstResponse.content with
  | none =>
    rw [process_query_no_tool_none env messages query h hc]
    exact ⟨rfl, rfl, fun t ht => Option.noConfusion ht⟩
  | some t =>
    rw [process_query_no_tool_some env messages query t h hc]
    refine ⟨rfl, rfl, fun s hs => ?_⟩
    cases hs
    rfl

/-- Environment for the C4 witness: plain-text answer, no tool calls. -/
def envNoTool : TurnEnv where
  tools := []
  jsonLoads := fun _ => none
  callTool := fun _ _ => Except.error ()
  firstResponse := { content := some "4", tool_calls := none }
  secondResponse := { content := some "unused", tool_calls := none }

/-- Witness for C4: the "What is 2+2?" turn dispatches nothing, issues one
model call and returns the text "4". -/
theorem c4_no_tool_call_branch_witness :
    (process_query envNoTool [] "What is 2+2?").dispatched = [] ∧
    (process_query envNoTool [] "What is 2+2?").modelCalls = 1 ∧
    (process_query envNoTool [] "What is 2+2?").result = Except.ok "4" :=
  ⟨(c4_no_tool_call_branch envNoTool [] "What is 2+2?" rfl).1,
   (c4_no_tool_call_branch envNoTool [] "What is 2+2?" rfl).2.1,
   (c4_no_tool_call_branch envNoTool [] "What is 2+2?" rfl).2.2 "4" rfl⟩

/-- C10: the tool-call branch is taken whenever `tool_calls` is
non-`None`, including when the list is empty: `content.tool_calls[0]`
then raises IndexError, so the turn crashes with no dispatch, no tool
entry and no second model call instead of treating the empty list as "no
tool-call request" and returning the text content; totality of the turn
therefore needs a present tool-call list to be non-empty. -/
theorem c10_empty_tool_call_list_crashes (env : TurnEnv)
    (messages : List Entry) (query : String)
    (h : env.firstResponse.tool_calls = some []) :
    (process_query env messages query).result
      = Except.error PyError.indexError ∧
    (process_query env messages query).dispatched = [] ∧
    (process_query env messages query).modelCalls = 1 ∧
    (process_query env messages query).messages
      = messages ++ [Entry.user query, Entry.assistant env.firstResponse] := by
  rw [process_query_empty_calls env messages query h]
  exact ⟨rfl, rfl, rfl, rfl⟩

/-- Environment for the C10 witness: a present-but-empty tool-call list
next to ordinary text content. -/
def envEmptyToolCalls : TurnEnv where
  tools := []
  jsonLoads := fun _ => some []
  callTool := fun _ _ => Except.ok ⟨false, [⟨"unused"⟩]⟩
  firstResponse := { content := some "some text", tool_calls := some [] }
  secondResponse := { content := some "unused", tool_calls := none }

/-- Witness for C10: with `tool_calls = []` the turn raises IndexError
instead of returning the text content "some text". -/
theorem c10_empty_tool_call_list_crashes_witness :
    (process_query envEmptyToolCalls [] "hi").result
      = Except.error PyError.indexError ∧
    (process_query envEmptyToolCalls [] "hi").dispatched = [] ∧
    (process_query envEmptyToolCalls [] "hi").modelCalls = 1 ∧
    (process_query envEmptyToolCalls [] "hi").messages
      = [Entry.user "hi", Entry.assistant envEmptyToolCalls.firstResponse] :=
  ⟨(c10_empty_tool_call_list_crashes envEmptyToolCalls [] "hi" rfl).1,
   (c10_empty_tool_call_list_crashes envEmptyToolCalls [] "hi" rfl).2.1,
   (c10_empty_tool_call_list_crashes envEmptyToolCalls [] "hi" rfl).2.2.1,
   (c10_empty_tool_call_list_crashes envEmptyToolCalls [] "hi" rfl).2.2.2⟩

/-- Environment exhibiting a dispatch fault: the first response requests
`list_files` with an empty payload and `call_tool` raises (simulated
transport fault). -/
def envDispatchFault : TurnEnv where
  tools := []
  jsonLoads := fun _ => none
  callTool := fun _ _ => Except.error ()
  firstResponse :=
    { content := some "I will call the tool"
      tool_calls := some [⟨"call_0", ⟨"list_files", ""⟩⟩] }
  secondResponse := { content := some "done", tool_calls := none }

/-- C1: when `call_tool` raises, the except branch sets `result = None`,
but line 116 then dereferences `result.content` unconditionally, so the
turn raises AttributeError: no tool entry is appended, no second model
call is issued, and no answer is returned — contradicting the code's own
recovery branch (and the spec). -/
theorem c1_dispatch_exception_crashes_turn :
    (process_query envDispatchFault [] "list files in /tmp").result
      = Except.error PyError.attributeError ∧
    (process_query envDispatchFault [] "list files in /tmp").dispatched
      = [("list_files", [])] ∧
    (process_query envDispatchFault [] "list files in /tmp").modelCalls = 1 ∧
    (process_query envDispatchFault [] "list files in /tmp").messages
      = [Entry.user "list files in /tmp",
         Entry.assistant envDispatchFault.firstResponse] := by
  rw [process_query_dispatch_exn envDispatchFault [] "list files in /tmp"
    ⟨"call_0", ⟨"list_files", ""⟩⟩ [] [] () rfl (by simp [parseArguments]) rfl]
  exact ⟨rfl, rfl, rfl, by simp⟩

/-- Environment exhibiting a malformed non-empty argument payload: the
first response requests `read_file` with the unparseable payload
"not json". -/
def envBadPayload : TurnEnv where
  tools := []
  jsonLoads := fun _ => none
  callTool := fun _ _ => Except.ok ⟨false, [⟨"block"⟩]⟩
  firstResponse :=
    { content := none
      tool_calls := some [⟨"call_1", ⟨"read_file", "not json"⟩⟩] }
  secondResponse := { content := some "answer", tool_calls := none }

/-- Counterexample to C2: with a non-empty non-parseable payload the turn
does crash — `json.loads` raises outside the try block, no dispatch is
issued, no tool entry is appended, no second model call occurs and no
answer is produced. -/
theorem c2_parse_failure_counterexample :
    (process_query envBadPayload [] "read the file").result
      = Except.error PyError.jsonDecodeError ∧
    (process_query envBadPayload [] "read the file").dispatched = [] ∧
    (process_query envBadPayload [] "read the file").modelCalls = 1 ∧
    (process_query envBadPayload [] "read the file").messages
      = [Entry.user "read the file",
         Entry.assistant envBadPayload.firstResponse] := by
  rw [process_query_parse_fail envBadPayload [] "read the file"
    ⟨"call_1", ⟨"read_file", "not json"⟩⟩ [] rfl
    (by simp [parseArguments, envBadPayload])]
  exact ⟨rfl, rfl, rfl, by simp⟩

/-- C2 (amended): a non-empty argument payload that does not parse makes
the turn abort with the parse error before any dispatch — no `call_tool`
invocation, no tool entry, no second model call; an empty payload string
is parsed to the empty argument mapping and the dispatch is issued with
it. -/
theorem c2_parse_failure_aborts_turn (env : TurnEnv) (messages : List Entry)
    (query : String) (tc : ToolCall) (rest : List ToolCall)
    (h : env.firstResponse.tool_calls = some (tc :: rest)) :
    (tc.function.arguments ≠ "" →
      env.jsonLoads tc.function.arguments = none →
      (process_query env messages query).result
          = Except.error PyError.jsonDecodeError ∧
        (process_query env messages query).dispatched = [] ∧
        (process_query env messages query).modelCalls = 1 ∧
        (process_query env messages query).messages
          = messages
            ++ [Entry.user query, Entry.assistant env.firstResponse]) ∧
    (tc.function.arguments = "" →
      (process_query env messages query).dispatched
        = [(tc.function.name, [])]) := by
  constructor
  · intro hne hload
    have hp : parseArguments env.jsonLoads tc.function.arguments = none := by
      simp [parseArguments, hne, hload]
    rw [process_query_parse_fail env messages query tc rest h hp]
    exact ⟨rfl, rfl, rfl, rfl⟩
  · intro he
    have hp : parseArguments env.jsonLoads tc.function.arguments = some [] := by
      simp [parseArguments, he]
    cases hd : env.callTool tc.function.name [] with
    | error e =>
      rw [process_query_dispatch_exn env messages query tc rest [] e h hp hd]
    | ok r =>
      cases hr : r.content with
      | nil =>
        rw [process_query_empty_content env messages query tc rest [] r
          h hp hd hr]
      | cons b bs =>
        cases hs : env.secondResponse.content with
        | none =>
          rw [process_query_tool_second_none env messages query tc rest [] r
            b bs h hp hd hr hs]
        | some t2 =>
          rw [process_query_tool_ok env messages query tc rest [] r
            b bs t2 h hp hd hr hs]

/-- Environment with an empty argument payload: `ping` is dispatched with
the empty mapping. -/
def envEmptyPayload : TurnEnv where
  tools := []
  jsonLoads := fun _ => none
  callTool := fun _ _ => Except.ok ⟨false, [⟨"data"⟩]⟩
  firstResponse :=
    { content := none, tool_calls := some [⟨"call_2", ⟨"ping", ""⟩⟩] }
  secondResponse := { content := some "pong", tool_calls := none }

/-- Witness for the amended C2: the malformed payload "not json" aborts
the turn with no dispatch, and the empty payload dispatches `ping` with
the empty mapping. -/
theorem c2_parse_failure_aborts_turn_witness :
    ((process_query envBadPayload [] "read the file").result
        = Except.error PyError.jsonDecodeError ∧
      (process_query envBadPayload [] "read the file").dispatched = [] ∧
      (process_query envBadPayload [] "read the file").modelCalls = 1 ∧
      (process_query envBadPayload [] "read the file").messages
        = [Entry.user "read the file",
           Entry.assistant envBadPayload.firstResponse]) ∧
    (process_query envEmptyPayload [] "ping it").dispatched
      = [("ping", [])] :=
  ⟨(c2_parse_failure_aborts_turn envBadPayload [] "read the file"
      ⟨"call_1", ⟨"read_file", "not json"⟩⟩ [] rfl).1
      (by decide) rfl,
   (c2_parse_failure_aborts_turn envEmptyPayload [] "ping it"
      ⟨"call_2", ⟨"ping", ""⟩⟩ [] rfl).2 rfl⟩

/-- The `call_tool` invocations of a turn with a tool-call request are
fully determined by the payload parse: none on parse failure, exactly the
first request's (name, arguments) otherwise — independent of the dispatch
outcome and of the second model response. -/
theorem dispatched_characterization (env : TurnEnv) (messages : List Entry)
    (query : String) (tc : ToolCall) (rest : List ToolCall)
    (h : env.firstResponse.tool_calls = some (tc :: rest)) :
    (process_query env messages query).dispatched
      = match parseArguments env.jsonLoads tc.function.arguments with
        | none => []
        | some a => [(tc.function.name, a)] := by
  cases hp : parseArguments env.jsonLoads tc.function.arguments with
  | none => rw [process_query_parse_fail env messages query tc rest h hp]
  | some a =>
    cases hd : env.callTool tc.function.name a with
    | error e =>
      rw [process_query_dispatch_exn env messages query tc rest a e h hp hd]
    | ok r =>
      cases hr : r.content with
      | nil =>
        rw [process_query_empty_content env messages query tc rest a r
          h hp hd hr]
      | cons b bs =>
        cases hs : env.secondResponse.content with
        | none =>
          rw [process_query_tool_second_none env messages query tc rest a r
            b bs h hp hd hr hs]
        | some t2 =>
          rw [process_query_tool_ok env messages query tc rest a r
            b bs t2 h hp hd hr hs]

/-- The number of model calls of a turn with a tool-call request: one
while any step before the tool-entry append fails, two as soon as the
tool entry is appended — never more. -/
theorem modelCalls_characterization (env : TurnEnv) (messages : List Entry)
    (query : String) (tc : ToolCall) (rest : List ToolCall)
    (h : env.firstResponse.tool_calls = some (tc :: rest)) :
    (process_query env messages query).modelCalls
      = match parseArguments env.jsonLoads tc.function.arguments with
        | none => 1
        | some a =>
          match env.callTool tc.function.name a with
          | Except.error _ => 1
          | Except.ok r =>
            match r.content with
            | [] => 1
            | _ :: _ => 2 := by
  cases hp : parseArguments env.jsonLoads tc.function.arguments with
  | none => rw [process_query_parse_fail env messages query tc rest h hp]
  | some a =>
    cases hd : env.callTool tc.function.name a with
    | error e =>
      rw [process_query_dispatch_exn env messages query tc rest a e h hp hd]
      simp [hd]
    | ok r =>
      cases hr : r.content with
      | nil =>
        rw [process_query_empty_content env messages query tc rest a r
          h hp hd hr]
        simp [hd, hr]
      | cons b bs =>
        cases hs : env.secondResponse.content with
        | none =>
          rw [process_query_tool_second_none env messages query tc rest a r
            b bs h hp hd hr hs]
          simp [hd, hr]
        | some t2 =>
          rw [process_query_tool_ok env messages query tc rest a r
            b bs t2 h hp hd hr hs]
          simp [hd, hr]

/-- Environment for the C3 counterexample: a tool-call request whose
dispatch raises, so the turn dies before the second model call. -/
def envToolFault : TurnEnv where
  tools := []
  jsonLoads := fun _ => some [("path", "/tmp")]
  callTool := fun _ _ => Except.error ()
  firstResponse :=
    { content := none
      tool_calls := some [⟨"call_3", ⟨"list_files", "payload"⟩⟩] }
  secondResponse := { content := some "never reached", tool_calls := none }

/-- Counterexample to C3: a turn whose first response carries a tool-call
request but whose dispatch raises issues one `call_tool` invocation and
only ONE model call — the second model call claimed to always happen is
never issued. -/
theorem c3_counterexample :
    (process_query envToolFault [] "list files").dispatched
      = [("list_files", [("path", "/tmp")])] ∧
    (process_query envToolFault [] "list files").modelCalls = 1 ∧
    ¬ (process_query envToolFault [] "list files").modelCalls = 2 := by
  rw [process_query_dispatch_exn envToolFault [] "list files"
    ⟨"call_3", ⟨"list_files", "payload"⟩⟩ [] [("path", "/tmp")] () rfl
    (by simp [parseArguments, envToolFault]) rfl]
  exact ⟨rfl, rfl, by decide⟩

/-- C3 (amended): a turn whose first response carries at least one
tool-call request issues at most one `call_tool` invocation, always for
the first request only, and at most two model calls; when the payload
parses and the dispatch returns a result with at least one content
block, it issues exactly one `call_tool` invocation and exactly one
second model call; and the dispatch set never depends on the second
response, so no further dispatch occurs even if the second response also
requests a tool. -/
theorem c3_single_hop (env : TurnEnv) (messages : List Entry)
    (query : String) (tc : ToolCall) (rest : List ToolCall)
    (h : env.firstResponse.tool_calls = some (tc :: rest)) :
    (process_query env messages query).dispatched.length ≤ 1 ∧
    (∀ p ∈ (process_query env messages query).dispatched,
      p.1 = tc.function.name) ∧
    (process_query env messages query).modelCalls ≤ 2 ∧
    (∀ a r b bs,
      parseArguments env.jsonLoads tc.function.arguments = some a →
      env.callTool tc.function.name a = Except.ok r →
      r.content = b :: bs →
      (process_query env messages query).dispatched
          = [(tc.function.name, a)] ∧
        (process_query env messages query).modelCalls = 2) ∧
    (∀ sc : AssistantMessage,
      (process_query { env with secondResponse := sc } messages
          query).dispatched
        = (process_query env messages query).dispatched) := by
  have hd := dispatched_characterization env messages query tc rest h
  have hm := modelCalls_characterization env messages query tc rest h
  refine ⟨?_, ?_, ?_, ?_, ?_⟩
  · rw [hd]
    cases parseArguments env.jsonLoads tc.function.arguments <;> simp
  · rw [hd]
    cases parseArguments env.jsonLoads tc.function.arguments <;> simp
  · rw [hm]
    split
    · omega
    · split
      · omega
      · split <;> omega
  · intro a r b bs hp hcall hr
    constructor
    · rw [hd, hp]
    · rw [hm, hp]
      simp [hcall, hr]
  · intro sc
    have h2 : ({ env with secondResponse := sc } :
        TurnEnv).firstResponse.tool_calls = some (tc :: rest) := h
    rw [dispatched_characterization { env with secondResponse := sc }
      messages query tc rest h2, hd]

/-- Environment for the C3 witness: happy-path tool turn whose first
response carries two tool-call requests and whose second response also
requests a tool; only the first request of the first response is
dispatched. -/
def envHappy : TurnEnv where
  tools := [⟨"list_files", "List files", ⟨[("path", "string")], ["path"]⟩⟩]
  jsonLoads := fun s =>
    if s = "payload" then some [("path", "/tmp")] else none
  callTool := fun _ _ => Except.ok ⟨false, [⟨"serialized-block"⟩, ⟨"extra"⟩]⟩
  firstResponse :=
    { content := some "I will list the files"
      tool_calls := some [⟨"call_9", ⟨"list_files", "payload"⟩⟩,
        ⟨"call_10", ⟨"ignored_tool", ""⟩⟩] }
  secondResponse :=
    { content := some "There are 3 files"
      tool_calls := some [⟨"call_11", ⟨"list_files", "payload"⟩⟩] }

/-- Witness for the amended C3: on the happy path exactly one dispatch of
the first request and exactly two model calls occur, even though a second
request sits in the same response and the second response requests a
tool as well. -/
theorem c3_single_hop_witness :
    (process_query envHappy [] "List files in /tmp").dispatched
      = [("list_files", [("path", "/tmp")])] ∧
    (process_query envHappy [] "List files in /tmp").modelCalls = 2 :=
  (c3_single_hop envHappy [] "List files in /tmp"
    ⟨"call_9", ⟨"list_files", "payload"⟩⟩
    [⟨"call_10", ⟨"ignored_tool", ""⟩⟩] rfl).2.2.2.1
    [("path", "/tmp")] ⟨false, [⟨"serialized-block"⟩, ⟨"extra"⟩]⟩
    ⟨"serialized-block"⟩ [⟨"extra"⟩]
    (by simp [parseArguments, envHappy]) rfl rfl

/-- C6: when the first model response carries both text content and a
tool-call request, the accompanying text is discarded — the returned
final output is exactly the tool-call announcement joined with the
second model call's text, independent of the universally quantified
first-response text `txt`. -/
theorem c6_first_response_text_discarded (env : TurnEnv)
    (messages : List Entry) (query txt : String) (tc : ToolCall)
    (rest : List ToolCall) (a : Arguments) (r : CallToolResult)
    (b : ContentBlock) (bs : List ContentBlock) (t2 : String)
    (_hc : env.firstResponse.content = some txt)
    (h : env.firstResponse.tool_calls = some (tc :: rest))
    (hp : parseArguments env.jsonLoads tc.function.arguments = some a)
    (hd : env.callTool tc.function.name a = Except.ok r)
    (hr : r.content = b :: bs)
    (hs : env.secondResponse.content = some t2) :
    (process_query env messages query).result
      = Except.ok (announce tc.function.name a ++ "\n" ++ t2) ∧
    (process_query env messages query).final_text
      = [announce tc.function.name a, t2] := by
  rw [process_query_tool_ok env messages query tc rest a r b bs t2
    h hp hd hr hs]
  exact ⟨rfl, rfl⟩

/-- Environment for the C6 witness: first response with both text and a
tool-call request. -/
def envBothTextAndTool : TurnEnv where
  tools := []
  jsonLoads := fun s => if s = "argpayload" then some [("path", "/tmp")]
    else none
  callTool := fun _ _ => Except.ok ⟨false, [⟨"file-listing"⟩]⟩
  firstResponse :=
    { content := some "Let me check that directory"
      tool_calls := some [⟨"call_4", ⟨"list_files", "argpayload"⟩⟩] }
  secondResponse :=
    { content := some "The directory holds two files", tool_calls := none }

/-- Witness for C6: the first response's text "Let me check that
directory" is absent from the final output, which is the announcement
plus the second call's text. -/
theorem c6_first_response_text_discarded_witness :
    (process_query envBothTextAndTool [] "What is in /tmp?").result
      = Except.ok (announce "list_files" [("path", "/tmp")]
          ++ "\n" ++ "The directory holds two files") ∧
    (process_query envBothTextAndTool [] "What is in /tmp?").final_text
      = [announce "list_files" [("path", "/tmp")],
         "The directory holds two files"] :=
  c6_first_response_text_discarded envBothTextAndTool []
    "What is in /tmp?" "Let me check that directory"
    ⟨"call_4", ⟨"list_files", "argpayload"⟩⟩ [] [("path", "/tmp")]
    ⟨false, [⟨"file-listing"⟩]⟩ ⟨"file-listing"⟩ [] 
    "The directory holds two files" rfl rfl
    (by simp [parseArguments, envBothTextAndTool]) rfl rfl rfl

/-- C9: on a successful dispatch the tool entry's content is the JSON
serialization of only the first content block — later blocks `bs` are
discarded from the appended entry — and a Tool Result with an empty
content sequence makes the append step fail with IndexError (no tool
entry appended). -/
theorem c9_first_content_block_only (env : TurnEnv) (messages : List Entry)
    (query : String) (tc : ToolCall) (rest : List ToolCall)
    (a : Arguments) (r : CallToolResult)
    (h : env.firstResponse.tool_calls = some (tc :: rest))
    (hp : parseArguments env.jsonLoads tc.function.arguments = some a)
    (hd : env.callTool tc.function.name a = Except.ok r) :
    (r.content = [] →
      (process_query env messages query).result
          = Except.error PyError.indexError ∧
        (process_query env messages query).messages
          = messages
            ++ [Entry.user query, Entry.assistant env.firstResponse]) ∧
    (∀ b bs, r.content = b :: bs →
      (process_query env messages query).messages
        = messages
          ++ [Entry.user query, Entry.assistant env.firstResponse,
            Entry.tool tc.id tc.function.name b.model_dump_json]) := by
  constructor
  · intro hr
    rw [process_query_empty_content env messages query tc rest a r h hp hd hr]
    exact ⟨rfl, rfl⟩
  · intro b bs hr
    cases hs : env.secondResponse.content with
    | none =>
      rw [process_query_tool_second_none env messages query tc rest a r
        b bs h hp hd hr hs]
    | some t2 =>
      rw [process_query_tool_ok env messages query tc rest a r
        b bs t2 h hp hd hr hs]

/-- Environment for the C9 witness: a Tool Result with three content
blocks; only the first is serialized into the tool entry. -/
def envMultiBlock : TurnEnv where
  tools := []
  jsonLoads := fun _ => none
  callTool := fun _ _ =>
    Except.ok ⟨false, [⟨"block-one"⟩, ⟨"block-two"⟩, ⟨"block-three"⟩]⟩
  firstResponse :=
    { content := none
      tool_calls := some [⟨"call_5", ⟨"fetch", ""⟩⟩] }
  secondResponse := { content := some "fetched", tool_calls := none }

/-- Environment for the C9 witness, empty-content side: a Tool Result
with no content blocks makes the append step fail. -/
def envEmptyBlocks : TurnEnv where
  tools := []
  jsonLoads := fun _ => none
  callTool := fun _ _ => Except.ok ⟨false, []⟩
  firstResponse :=
    { content := none
      tool_calls := some [⟨"call_6", ⟨"fetch", ""⟩⟩] }
  secondResponse := { content := some "unreached", tool_calls := none }

/-- Witness for C9: with three content blocks the tool entry holds only
"block-one"; with zero blocks the append step raises IndexError. -/
theorem c9_first_content_block_only_witness :
    (process_query envMultiBlock [] "fetch it").messages
      = [Entry.user "fetch it",
         Entry.assistant envMultiBlock.firstResponse,
         Entry.tool "call_5" "fetch" "block-one"] ∧
    (process_query envEmptyBlocks [] "fetch it again").result
      = Except.error PyError.indexError :=
  ⟨(c9_first_content_block_only envMultiBlock [] "fetch it"
      ⟨"call_5", ⟨"fetch", ""⟩⟩ [] [] ⟨false,
        [⟨"block-one"⟩, ⟨"block-two"⟩, ⟨"block-three"⟩]⟩
      rfl (by simp [parseArguments]) rfl).2
      ⟨"block-one"⟩ [⟨"block-two"⟩, ⟨"block-three"⟩] rfl,
   ((c9_first_content_block_only envEmptyBlocks [] "fetch it again"
      ⟨"call_6", ⟨"fetch", ""⟩⟩ [] [] ⟨false, []⟩
      rfl (by simp [parseArguments]) rfl).1 rfl).1⟩

/-- On every control-flow path, one `process_query` call appends to the
existing log exactly the user entry, the assistant entry (verbatim first
response) and then either nothing or one tool entry whose correlation id
is the first tool-call id of that assistant entry. -/
theorem process_query_messages_shape (env : TurnEnv) (m : List Entry)
    (q : String) :
    ∃ tail, (process_query env m q).messages
        = m ++ Entry.user q :: Entry.assistant env.firstResponse :: tail ∧
      (tail = [] ∨ ∃ tc rest c,
        env.firstResponse.tool_calls = some (tc :: rest) ∧
        tail = [Entry.tool tc.id tc.function.name c]) := by
  cases h : env.firstResponse.tool_calls with
  | none =>
    cases hc : env.firstResponse.content with
    | none =>
      exact ⟨[], by rw [process_query_no_tool_none env m q h hc], Or.inl rfl⟩
    | some t =>
      exact ⟨[], by rw [process_query_no_tool_some env m q t h hc], Or.inl rfl⟩
  | some tcs =>
    cases tcs with
    | nil =>
      exact ⟨[], by rw [process_query_empty_calls env m q h], Or.inl rfl⟩
    | cons tc rest =>
      cases hp : parseArguments env.jsonLoads tc.function.arguments with
      | none =>
        exact ⟨[], by rw [process_query_parse_fail env m q tc rest h hp],
          Or.inl rfl⟩
      | some a =>
        cases hd : env.callTool tc.function.name a with
        | error e =>
          exact ⟨[],
            by rw [process_query_dispatch_exn env m q tc rest a e h hp hd],
            Or.inl rfl⟩
        | ok r =>
          cases hr : r.content with
          | nil =>
            exact ⟨[],
              by rw [process_query_empty_content env m q tc rest a r
                h hp hd hr],
              Or.inl rfl⟩
          | cons b bs =>
            cases hs : env.secondResponse.content with
            | none =>
              exact ⟨[Entry.tool tc.id tc.function.name b.model_dump_json],
                by rw [process_query_tool_second_none env m q tc rest a r
                  b bs h hp hd hr hs],
                Or.inr ⟨tc, rest, b.model_dump_json, rfl, rfl⟩⟩
            | some t2 =>
              exact ⟨[Entry.tool tc.id tc.function.name b.model_dump_json],
                by rw [process_query_tool_ok env m q tc rest a r
                  b bs t2 h hp hd hr hs],
                Or.inr ⟨tc, rest, b.model_dump_json, rfl, rfl⟩⟩

/-- `runTurns` distributes over list append. -/
theorem runTurns_append (xs ys : List (TurnEnv × String))
    (m : List Entry) :
    runTurns (xs ++ ys) m = runTurns ys (runTurns xs m) := by
  induction xs generalizing m with
  | nil => rfl
  | cons x xs ih => exact ih ((process_query x.1 m x.2).messages)

/-- C5: over any sequence of turns the conversation log is append-only —
the log after turn `i+1` is the log after turn `i` plus a delta of
exactly two entries (user, assistant) or three entries (user, assistant,
tool), and a tool entry's correlation identifier is the tool-call id of
the immediately preceding assistant entry. -/
theorem c5_log_append_only (turns : List (TurnEnv × String)) (i : Nat)
    (h : i < turns.length) :
    ∃ tail,
      runTurns (turns.take (i + 1)) []
          = runTurns (turns.take i) []
            ++ Entry.user turns[i].2
            :: Entry.assistant turns[i].1.firstResponse :: tail ∧
      (tail = [] ∨ ∃ tc rest c,
        turns[i].1.firstResponse.tool_calls = some (tc :: rest) ∧
        tail = [Entry.tool tc.id tc.function.name c]) := by
  have ht : turns.take (i + 1) = turns.take i ++ [turns[i]] := by
    rw [List.take_succ]
    simp [List.getElem?_eq_getElem h]
  obtain ⟨tail, hmsg, hcase⟩ :=
    process_query_messages_shape turns[i].1
      (runTurns (turns.take i) []) turns[i].2
  refine ⟨tail, ?_, hcase⟩
  rw [ht, runTurns_append]
  exact hmsg

/-- Environment for the C5 witness: a single no-tool turn. -/
def envTurnA : TurnEnv where
  tools := []
  jsonLoads := fun _ => none
  callTool := fun _ _ => Except.error ()
  firstResponse := { content := some "hi there", tool_calls := none }
  secondResponse := { content := some "unused", tool_calls := none }

/-- Witness for C5 on a one-turn sequence: the log after the turn extends
the empty log by the user and assistant entries plus an optional
correlated tool entry. -/
theorem c5_log_append_only_witness :
    0 < List.length [(envTurnA, "hello")] ∧
    ∃ tail,
      runTurns (List.take (0 + 1) [(envTurnA, "hello")]) []
          = runTurns (List.take 0 [(envTurnA, "hello")]) []
            ++ Entry.user "hello"
            :: Entry.assistant envTurnA.firstResponse :: tail ∧
      (tail = [] ∨ ∃ tc rest c,
        envTurnA.firstResponse.tool_calls = some (tc :: rest) ∧
        tail = [Entry.tool tc.id tc.function.name c]) :=
  ⟨by decide, c5_log_append_only [(envTurnA, "hello")] 0 (by decide)⟩
